import Mathlib

/-!
Verification of the PoET enclave simulator
(`src/consensus/poet/simulator/sawtooth_poet_simulator/poet_enclave_simulator/poet_enclave_simulator.py`).

The enclave operations are embedded shallowly.  Python floats are modelled
as elements of a linear ordered field (instantiated with `ℝ` where
`math.log` is involved); bytes are `Fin 256`; fallible operations return
`Except Err`.  Collaborators of the simulator that belong to the
repository but are not under `src/` (the `sawtooth_signing` facade, the
`sgx_structs` codec, the JSON helpers `dict2json` / `json2dict` and the
artifact containers), as well as the external hash / RSA primitives, are
modelled from the spec as fields of a `Facade` structure; theorems take
the crypto facts they need as explicit hypotheses.
-/

namespace PoetSim

/-- A byte, as produced by `base64.b64decode` and `hashlib` digests. -/
abbrev Byte := Fin 256

/-- Build a byte from a natural number (numbers are reduced mod 256). -/
def mkByte (n : ℕ) : Byte := ⟨n % 256, Nat.mod_lt _ (by norm_num)⟩

/-- Build a byte string from a list of naturals. -/
def mkBytes (l : List ℕ) : List Byte := l.map mkByte

/-- Model of `struct.unpack` with format `Q`: the little-endian unsigned 64-bit integer
formed from a byte list (the first element is the least significant). -/
def leU64 (bs : List Byte) : ℕ := bs.foldr (fun b acc => b.val + 256 * acc) 0

/-- Python `l[-n:]`: the last `n` elements of a list. -/
def lastN (n : ℕ) (l : List Byte) : List Byte := l.drop (l.length - n)

/-- Right-pad a byte list with zero bytes to 64 bytes
(the source appends zero bytes up to `SgxReportData.STRUCT_SIZE`). -/
def pad64 (d : List Byte) : List Byte := d ++ List.replicate (64 - d.length) (mkByte 0)

/-- The constant `__VALID_BASENAME__`:
`b785c58b77152cbe7fd55ee3851c499000000000000000000000000000000000`. -/
def VALID_BASENAME : List Byte :=
  mkBytes [0xb7, 0x85, 0xc5, 0x8b, 0x77, 0x15, 0x2c, 0xbe,
           0x7f, 0xd5, 0x5e, 0xe3, 0x85, 0x1c, 0x49, 0x90,
           0, 0, 0, 0, 0, 0, 0, 0, 0, 0, 0, 0, 0, 0, 0, 0]

/-- The constant `__VALID_ENCLAVE_MEASUREMENT__`:
`c99f21955e38dbb03d2ca838d3af6e43ef438926ed02db4cc729380c8c7a174e`. -/
def VALID_ENCLAVE_MEASUREMENT : List Byte :=
  mkBytes [0xc9, 0x9f, 0x21, 0x95, 0x5e, 0x38, 0xdb, 0xb0,
           0x3d, 0x2c, 0xa8, 0x38, 0xd3, 0xaf, 0x6e, 0x43,
           0xef, 0x43, 0x89, 0x26, 0xed, 0x02, 0xdb, 0x4c,
           0xc7, 0x29, 0x38, 0x0c, 0x8c, 0x7a, 0x17, 0x4e]

/-- Modelled from the spec: `NULL_BLOCK_IDENTIFIER` from
`sawtooth_validator.journal.block_wrapper` (not under `src/`); an opaque
string constant used only for equality comparison. -/
def NULL_BLOCK_IDENTIFIER : String := "0000000000000000"

/-- The constant `TIMER_TIMEOUT_PERIOD = 30.0`. -/
def TIMER_TIMEOUT_PERIOD {α : Type} [LinearOrderedField α] : α := 30

/-- Modelled from the spec: `sgx_structs.SgxReportData` — 64 bytes on the
wire, zero-filled past the carried digest. -/
structure SgxReportData where
  d : List Byte
deriving DecidableEq

/-- Modelled from the spec: `sgx_structs.SgxReportBody` — enclave
measurement plus report data (fixed padding elided). -/
structure SgxReportBody where
  mr_enclave : List Byte
  report_data : SgxReportData
deriving DecidableEq

/-- Modelled from the spec: `sgx_structs.SgxQuote` — basename plus report
body. -/
structure SgxQuote where
  basename : List Byte
  report_body : SgxReportBody
deriving DecidableEq

/-- Modelled from the spec: `SgxQuote.serialize_to_bytes` with the
simplified layout of §2 of the spec: basename, then measurement, then the
report data zero-padded to its 64-byte wire size. -/
def sgxQuoteSerialize (q : SgxQuote) : List Byte :=
  q.basename ++ q.report_body.mr_enclave ++ pad64 q.report_body.report_data.d

/-- Modelled from the spec: `SgxQuote.parse_from_bytes` for the same
layout (32-byte basename, 32-byte measurement, 64-byte report data). -/
def sgxQuoteParse (bs : List Byte) : SgxQuote :=
  ⟨bs.take 32, ⟨(bs.drop 32).take 32, ⟨bs.drop 64⟩⟩⟩

/-- The quote with its report data padded to the 64-byte wire size. -/
def padQuote (q : SgxQuote) : SgxQuote :=
  ⟨q.basename, ⟨q.report_body.mr_enclave, ⟨pad64 q.report_body.report_data.d⟩⟩⟩

/-- The verification-report dictionary built by `create_signup_info` and
re-parsed by `verify_signup_info`; absent JSON keys are `none`. -/
structure VerificationReportDict where
  epidPseudonym : Option String
  id : Option String
  isvEnclaveQuoteStatus : Option String
  isvEnclaveQuoteBody : Option String
  pseManifestStatus : Option String
  pseManifestHash : Option String
  nonce : Option String
  timestamp : Option String
deriving DecidableEq

/-- The `evidence_payload` sub-dictionary of the proof data. -/
structure EvidencePayloadDict where
  pse_manifest : Option String
deriving DecidableEq

/-- The proof-data dictionary (JSON transport between `dict2json` and
`json2dict` is modelled as the identity on this structure). -/
structure ProofDataDict where
  evidence_payload : Option EvidencePayloadDict
  verification_report : Option String
  signature : Option String
deriving DecidableEq

/-- The signup-data dictionary sealed by `create_signup_info` and
recovered by `unseal_signup_data`; absent JSON keys are `none`. -/
structure SignupDataDict where
  poet_public_key : Option String
  poet_private_key : Option String
deriving DecidableEq

/-- Modelled from the spec: the `EnclaveSignupInfo` artifact container. -/
structure EnclaveSignupInfo where
  poet_public_key : String
  proof_data : ProofDataDict
  anti_sybil_id : String
  sealed_signup_data : String
deriving DecidableEq

/-- Modelled from the spec: the `EnclaveWaitTimer` artifact container;
`α` is the type modelling Python floats. -/
structure EnclaveWaitTimer (α : Type) where
  validator_address : String
  duration : α
  previous_certificate_id : String
  local_mean : α
  request_time : α
  signature : String

/-- Modelled from the spec: the `EnclaveWaitCertificate` artifact
container. -/
structure EnclaveWaitCertificate (α : Type) where
  validator_address : String
  duration : α
  previous_certificate_id : String
  local_mean : α
  request_time : α
  nonce : String
  block_hash : String
  signature : String

/-- The errors the simulator can raise.  Each constructor stands for one
`raise` site of the source (`ValueError` unless noted); payloads carry
the data the source interpolates into the message. -/
inductive Err where
  | notInitializedTimer
  | structError
  | mathDomainError
  | notInitializedCert
  | noActiveTimer
  | notCurrentTimer
  | timerNotExpired
  | timerTimedOut
  | missingVerificationReport
  | missingSignature
  | invalidReportSignature
  | missingId
  | missingEpidPseudonym
  | antiSybilMismatch (a b : String)
  | missingPseManifestStatus
  | pseManifestStatusNotOk (s : String)
  | missingPseManifestHash
  | missingEvidencePayload
  | missingPseManifest
  | pseManifestHashMismatch (a b : String)
  | missingEnclaveQuoteStatus
  | enclaveQuoteStatusNotOk (s : String)
  | missingEnclaveQuote
  | reportDataMismatch (a b : List Byte)
  | measurementMismatch (a b : List Byte)
  | basenameMismatch (a b : List Byte)
  | attributeError
deriving DecidableEq

/-- Modelled from the spec: the collaborators of the simulator that are
not under `src/` — the `sawtooth_signing` facade (ECDSA over secp256k1,
deterministic per RFC 6979), base64, SHA-256, the baked-in report RSA
keypair (folded into `rsaSign` / `rsaVerify`), the canonical JSON
encoder / decoder, and the artifact serializers.  `α` models Python
floats. -/
structure Facade (α : Type) where
  generate_pubkey : String → String
  sign : String → String → String
  verify : String → String → Option String → Bool
  b64decodeBytes : String → List Byte
  b64encodeBytes : List Byte → String
  b64encodeStr : String → String
  b64decodeStr : String → String
  sha256hex : String → String
  sha256digest : String → List Byte
  rsaSign : String → List Byte
  rsaVerify : List Byte → String → Bool
  dict2jsonVR : VerificationReportDict → String
  json2dictVR : String → VerificationReportDict
  dict2jsonKeys : SignupDataDict → String
  json2dictKeys : String → SignupDataDict
  jsonNonce : String → String → String
  serializeTimer : EnclaveWaitTimer α → String
  serializeCert : EnclaveWaitCertificate α → String
  timerFromSerialized : String → String → EnclaveWaitTimer α

/-- The mutable class-level state of `_PoetEnclaveSimulator`. -/
structure EnclaveState (α : Type) where
  seal_private_key : String
  poet_public_key : Option String
  poet_private_key : Option String
  active_wait_timer : Option (EnclaveWaitTimer α)

/-- Python `str` applied to an optional string: `str(None)` is the literal
string `"None"`. -/
def pyStr : Option String → String
  | some s => s
  | none => "None"

/-- Python `str.upper()`, modelled character by character. -/
def pyUpper (s : String) : String := ⟨s.data.map Char.toUpper⟩

/-- The report data placed in the SGX quote by `create_signup_info`:
`SHA256(upper(OPKH) || upper(PPK))`. -/
def csiReportData {α : Type} (C : Facade α) (opkh pub : String) : List Byte :=
  C.sha256digest (pyUpper opkh ++ pyUpper pub)

/-- The fake SGX quote built by `create_signup_info`. -/
def csiQuote {α : Type} (C : Facade α) (opkh pub : String) : SgxQuote :=
  ⟨VALID_BASENAME, ⟨VALID_ENCLAVE_MEASUREMENT, ⟨csiReportData C opkh pub⟩⟩⟩

/-- The fake PSE manifest: the base64 encoding of the originator public
key hash. -/
def csiPseManifest {α : Type} (C : Facade α) (opkh : String) : String :=
  C.b64encodeStr opkh

/-- The verification report built by `create_signup_info`. -/
def csiVerificationReport {α : Type} (C : Facade α)
    (opkh nonce pub timestamp : String) : VerificationReportDict where
  epidPseudonym := some opkh
  id := some (C.b64encodeStr (C.sha256hex timestamp))
  isvEnclaveQuoteStatus := some "OK"
  isvEnclaveQuoteBody := some (C.b64encodeBytes (sgxQuoteSerialize (csiQuote C opkh pub)))
  pseManifestStatus := some "OK"
  pseManifestHash := some (C.b64encodeStr (C.sha256hex (csiPseManifest C opkh)))
  nonce := some nonce
  timestamp := some timestamp

/-- The serialized verification report that gets signed with the report
private key. -/
def csiVrJson {α : Type} (C : Facade α) (opkh nonce pub timestamp : String) : String :=
  C.dict2jsonVR (csiVerificationReport C opkh nonce pub timestamp)

/-- Model of `create_signup_info`: generate a fresh PoET keypair (the fresh
private key and the creation timestamp are passed as inputs, standing
for the randomness and the clock), seal the signup data, build the fake
quote, verification report and proof data, and install the new keys.
Returns the signup info together with the updated state. -/
def createSignupInfo {α : Type} (C : Facade α) (s : EnclaveState α)
    (opkh nonce priv timestamp : String) :
    EnclaveSignupInfo × EnclaveState α :=
  let pub := C.generate_pubkey priv
  let sealed := C.b64encodeStr (C.dict2jsonKeys ⟨some pub, some priv⟩)
  let vrJson := csiVrJson C opkh nonce pub timestamp
  let proofData : ProofDataDict :=
    ⟨some ⟨some (csiPseManifest C opkh)⟩,
     some vrJson,
     some (C.b64encodeBytes (C.rsaSign vrJson))⟩
  (⟨pub, proofData, opkh, sealed⟩,
   { s with
       poet_public_key := some pub
       poet_private_key := some priv
       active_wait_timer := none })

/-- Model of `unseal_signup_data`: base64-decode and JSON-parse the sealed data,
install `str(...)` of both optional keys, clear the active timer and
return the (optional) public key. -/
def unsealSignupData {α : Type} (C : Facade α) (s : EnclaveState α)
    (sealed : String) : Option String × EnclaveState α :=
  let sd := C.json2dictKeys (C.b64decodeStr sealed)
  (sd.poet_public_key,
   { s with
       poet_public_key := some (pyStr sd.poet_public_key)
       poet_private_key := some (pyStr sd.poet_private_key)
       active_wait_timer := none })

/-- Model of `verify_signup_info`: the check chain of the source, in source
order; each failing check returns its own error. -/
def verifySignupInfo {α : Type} (C : Facade α) (s : EnclaveState α)
    (si : EnclaveSignupInfo) (opkh : String) : Except Err Unit :=
  match si.proof_data.verification_report with
  | none => .error .missingVerificationReport
  | some vrs =>
    match si.proof_data.signature with
    | none => .error .missingSignature
    | some sigStr =>
      if C.rsaVerify (C.b64decodeBytes sigStr) vrs then
        let vr := C.json2dictVR vrs
        if vr.id = none then .error .missingId
        else
          match vr.epidPseudonym with
          | none => .error .missingEpidPseudonym
          | some ep =>
            if ep ≠ si.anti_sybil_id then .error (.antiSybilMismatch ep si.anti_sybil_id)
            else
              match vr.pseManifestStatus with
              | none => .error .missingPseManifestStatus
              | some pms =>
                if pyUpper pms ≠ "OK" then .error (.pseManifestStatusNotOk pms)
                else
                  match vr.pseManifestHash with
                  | none => .error .missingPseManifestHash
                  | some pmh =>
                    match si.proof_data.evidence_payload with
                    | none => .error .missingEvidencePayload
                    | some ev =>
                      match ev.pse_manifest with
                      | none => .error .missingPseManifest
                      | some pm =>
                        let expectedPmh := C.b64encodeStr (C.sha256hex pm)
                        if pyUpper pmh ≠ pyUpper expectedPmh then
                          .error (.pseManifestHashMismatch pmh expectedPmh)
                        else
                          match vr.isvEnclaveQuoteStatus with
                          | none => .error .missingEnclaveQuoteStatus
                          | some eqs =>
                            if pyUpper eqs ≠ "OK" then .error (.enclaveQuoteStatusNotOk eqs)
                            else
                              match vr.isvEnclaveQuoteBody with
                              | none => .error .missingEnclaveQuote
                              | some qb =>
                                let q := sgxQuoteParse (C.b64decodeBytes qb)
                                match s.poet_public_key with
                                | none => .error .attributeError
                                | some ppk =>
                                  let hv := C.sha256digest (pyUpper opkh ++ pyUpper ppk)
                                  let expected := pad64 hv
                                  if q.report_body.report_data.d ≠ expected then
                                    .error (.reportDataMismatch q.report_body.report_data.d expected)
                                  else if q.report_body.mr_enclave ≠ VALID_ENCLAVE_MEASUREMENT then
                                    .error (.measurementMismatch q.report_body.mr_enclave VALID_ENCLAVE_MEASUREMENT)
                                  else if q.basename ≠ VALID_BASENAME then
                                    .error (.basenameMismatch q.basename VALID_BASENAME)
                                  else
                                    .ok ()
      else .error .invalidReportSignature

/-- The quote that `verify_signup_info` parses out of a signup info:
the base64-decoded `isvEnclaveQuoteBody` of the JSON-parsed verification
report. -/
def parsedQuoteOf {α : Type} (C : Facade α) (si : EnclaveSignupInfo) : Option SgxQuote :=
  si.proof_data.verification_report.bind fun vrs =>
    ((C.json2dictVR vrs).isvEnclaveQuoteBody).map fun qb =>
      sgxQuoteParse (C.b64decodeBytes qb)

/-- The little-endian u64 drawn by `create_wait_timer` from the last 8
bytes of the base64-decoded seal-key signature of the previous
certificate id. -/
def waitTimerTag {α : Type} (C : Facade α) (sealKey pcid : String) : List Byte :=
  C.b64decodeBytes (C.sign pcid sealKey)

/-- The integer value `struct.unpack('Q', tag[-8:])[0]`. -/
def waitTimerU {α : Type} (C : Facade α) (sealKey pcid : String) : ℕ :=
  leU64 (lastN 8 (waitTimerTag C sealKey pcid))

/-- Model of `create_wait_timer`: require the PoET private key, draw the
deterministic uniform from the seal-key signature of the previous
certificate id, compute `duration = minimum_wait_time - local_mean *
log(tagd)`, sign the timer and install it as the active timer.  The
implicit Python failures are explicit here: `struct.unpack('Q', ...)`
fails unless it gets exactly 8 bytes, and `math.log` fails on a
non-positive argument. -/
noncomputable def createWaitTimer (C : Facade ℝ) (s : EnclaveState ℝ)
    (validator_address pcid : String) (local_mean minimum_wait_time now : ℝ) :
    Except Err (EnclaveWaitTimer ℝ × EnclaveState ℝ) :=
  match s.poet_private_key with
  | none => .error .notInitializedTimer
  | some k =>
    if (waitTimerTag C s.seal_private_key pcid).length < 8 then .error .structError
    else if waitTimerU C s.seal_private_key pcid = 0 then .error .mathDomainError
    else
      let tagd : ℝ := (waitTimerU C s.seal_private_key pcid : ℝ) / (2 ^ 64 - 1)
      let wt0 : EnclaveWaitTimer ℝ :=
        ⟨validator_address, minimum_wait_time - local_mean * Real.log tagd,
         pcid, local_mean, now, ""⟩
      let wt : EnclaveWaitTimer ℝ :=
        { wt0 with signature := C.sign (C.serializeTimer wt0) k }
      .ok (wt, { s with active_wait_timer := some wt })

/-- Model of `deserialize_wait_timer`: verify the signature against the current
PoET public key; on failure return `none` instead of an error, otherwise
return the parsed timer. -/
def deserializeWaitTimer {α : Type} (C : Facade α) (s : EnclaveState α)
    (serialized_timer signature : String) : Option (EnclaveWaitTimer α) :=
  if C.verify serialized_timer signature s.poet_public_key then
    some (C.timerFromSerialized serialized_timer signature)
  else
    none

/-- Modelled from the spec:
`EnclaveWaitCertificate.wait_certificate_with_wait_timer` — the
certificate inherits the timer's fields and adds the nonce and block
hash. -/
def certFromTimer {α : Type} (t : EnclaveWaitTimer α) (nonce block_hash : String) :
    EnclaveWaitCertificate α :=
  ⟨t.validator_address, t.duration, t.previous_certificate_id, t.local_mean,
   t.request_time, nonce, block_hash, ""⟩

/-- Model of `create_wait_certificate`: require the PoET private key and an
active timer, require the caller's timer to re-sign to the active
timer's signature, and — unless the previous certificate id is the null
block identifier — require `request_time + duration ≤ now` and
`now ≤ request_time + duration + TIMER_TIMEOUT_PERIOD`.  On success
build, sign and return the certificate and clear the active timer.
`now` models `time.time()` and `nowIso` the `utcnow` timestamp used for
the nonce. -/
def createWaitCertificate {α : Type} [LinearOrderedField α] (C : Facade α)
    (s : EnclaveState α) (wait_timer : Option (EnclaveWaitTimer α))
    (block_hash : String) (now : α) (nowIso : String) :
    Except Err (EnclaveWaitCertificate α × EnclaveState α) :=
  match s.poet_private_key with
  | none => .error .notInitializedCert
  | some k =>
    match s.active_wait_timer with
    | none => .error .noActiveTimer
    | some t =>
      match wait_timer with
      | none => .error .notCurrentTimer
      | some w =>
        if t.signature ≠ C.sign (C.serializeTimer w) k then .error .notCurrentTimer
        else
          let is_not_genesis := t.previous_certificate_id ≠ NULL_BLOCK_IDENTIFIER
          let expire_time := t.request_time + t.duration
          if is_not_genesis ∧ now < expire_time then .error .timerNotExpired
          else
            let time_out_time := t.request_time + t.duration + TIMER_TIMEOUT_PERIOD
            if is_not_genesis ∧ time_out_time < now then .error .timerTimedOut
            else
              let nonce := C.sha256hex (C.jsonNonce t.signature nowIso)
              let cert0 := certFromTimer t nonce block_hash
              let cert := { cert0 with signature := C.sign (C.serializeCert cert0) k }
              .ok (cert, { s with active_wait_timer := none })

/-! ### Basic facts about the uniform draw -/

lemma leU64_lt_pow (bs : List Byte) : leU64 bs < 256 ^ bs.length := by
  induction bs with
  | nil => simp [leU64]
  | cons b t ih =>
    have hb : b.val < 256 := b.isLt
    have hv : leU64 (b :: t) = b.val + 256 * leU64 t := rfl
    rw [hv, List.length_cons, pow_succ]
    calc b.val + 256 * leU64 t < 256 * (leU64 t + 1) := by omega
      _ ≤ 256 * 256 ^ t.length := Nat.mul_le_mul_left _ ih
      _ = 256 ^ t.length * 256 := Nat.mul_comm _ _

lemma lastN_length_le (n : ℕ) (l : List Byte) : (lastN n l).length ≤ n := by
  simp only [lastN, List.length_drop]
  omega

lemma waitTimerU_lt {α : Type} (C : Facade α) (sealKey pcid : String) :
    waitTimerU C sealKey pcid < 2 ^ 64 := by
  calc waitTimerU C sealKey pcid
      < 256 ^ (lastN 8 (waitTimerTag C sealKey pcid)).length := leU64_lt_pow _
    _ ≤ 256 ^ 8 := Nat.pow_le_pow_right (by norm_num) (lastN_length_le _ _)
    _ = 2 ^ 64 := by norm_num

/-- Characterization of a successful `create_wait_timer` run: the
duration formula, the non-zero draw, and preservation of the keys. -/
lemma createWaitTimer_ok {C : Facade ℝ} {s : EnclaveState ℝ}
    {v pcid : String} {lm mw now : ℝ}
    {wt : EnclaveWaitTimer ℝ} {s' : EnclaveState ℝ}
    (h : createWaitTimer C s v pcid lm mw now = .ok (wt, s')) :
    wt.duration =
      mw - lm * Real.log ((waitTimerU C s.seal_private_key pcid : ℝ) / (2 ^ 64 - 1)) ∧
    waitTimerU C s.seal_private_key pcid ≠ 0 ∧
    s'.seal_private_key = s.seal_private_key ∧
    s'.poet_private_key = s.poet_private_key := by
  unfold createWaitTimer at h
  split at h
  · cases h
  · split at h
    · cases h
    · split at h
      · cases h
      · rename_i k hk h8 hn
        simp only [Except.ok.injEq, Prod.mk.injEq] at h
        obtain ⟨hwt, hs'⟩ := h
        subst hwt
        subst hs'
        exact ⟨rfl, hn, rfl, rfl⟩

/-- A shared toy instantiation of the modelled collaborators, used by
the concrete witnesses; `d` is the dummy float value and `tag` the byte
string returned by the base64 decoder. -/
def toyFacade {α : Type} (d : α) (tag : List Byte) : Facade α where
  generate_pubkey := fun _ => "PUB"
  sign := fun _ _ => ""
  verify := fun _ _ _ => false
  b64decodeBytes := fun _ => tag
  b64encodeBytes := fun _ => ""
  b64encodeStr := fun _ => ""
  b64decodeStr := fun _ => ""
  sha256hex := fun _ => ""
  sha256digest := fun _ => []
  rsaSign := fun _ => []
  rsaVerify := fun _ _ => false
  dict2jsonVR := fun _ => ""
  json2dictVR := fun _ => ⟨none, none, none, none, none, none, none, none⟩
  dict2jsonKeys := fun _ => ""
  json2dictKeys := fun _ => ⟨none, none⟩
  jsonNonce := fun _ _ => ""
  serializeTimer := fun _ => ""
  serializeCert := fun _ => ""
  timerFromSerialized := fun _ _ => ⟨"", d, "", d, d, ""⟩

/-- A tag whose last 8 bytes are all `0xff` (the draw is `2^64 - 1`). -/
def tagFF : List Byte := List.replicate 8 (mkByte 255)

/-- A tag whose last 8 bytes are all zero (the draw is `0`). -/
def tagZero : List Byte := List.replicate 8 (mkByte 0)

/-- An initialized enclave state used by the wait-timer witnesses. -/
def wtState : EnclaveState ℝ := ⟨"sealk", some "K", some "k", none⟩

/-- The timer produced by `createWaitTimer (toyFacade 0 tagFF) wtState
"v" "p" 2 1 0`. -/
noncomputable def wtTimerOut : EnclaveWaitTimer ℝ :=
  ⟨"v", 1 - 2 * Real.log ((waitTimerU (toyFacade (0 : ℝ) tagFF) "sealk" "p" : ℝ) / (2 ^ 64 - 1)),
   "p", 2, 0, ""⟩

/-- The state after that run. -/
noncomputable def wtStateOut : EnclaveState ℝ := ⟨"sealk", some "K", some "k", some wtTimerOut⟩

/-- C1: whenever the PoET private key is present and `create_wait_timer`
returns a wait timer, that timer's duration equals
`minimum_wait_time - local_mean * ln(u)` where `u` is the little-endian
unsigned 64-bit integer formed from the last 8 bytes of the
base64-decoded seal-key signature of `previous_certificate_id`, divided
by `2^64 - 1`. -/
theorem create_wait_timer_duration_formula (C : Facade ℝ) (s : EnclaveState ℝ)
    (v pcid : String) (lm mw now : ℝ) (k : String)
    (_hk : s.poet_private_key = some k)
    (wt : EnclaveWaitTimer ℝ) (s' : EnclaveState ℝ)
    (h : createWaitTimer C s v pcid lm mw now = .ok (wt, s')) :
    wt.duration =
      mw - lm * Real.log
        ((leU64 (lastN 8 (C.b64decodeBytes (C.sign pcid s.seal_private_key))) : ℝ) /
          (2 ^ 64 - 1)) :=
  (createWaitTimer_ok h).1

theorem create_wait_timer_duration_formula_witness :
    wtState.poet_private_key = some "k" ∧
    createWaitTimer (toyFacade 0 tagFF) wtState "v" "p" 2 1 0 = .ok (wtTimerOut, wtStateOut) ∧
    wtTimerOut.duration =
      1 - 2 * Real.log
        ((leU64 (lastN 8 ((toyFacade (0 : ℝ) tagFF).b64decodeBytes
            ((toyFacade (0 : ℝ) tagFF).sign "p" wtState.seal_private_key))) : ℝ) /
          (2 ^ 64 - 1)) :=
  ⟨rfl, by rfl,
   create_wait_timer_duration_formula (toyFacade 0 tagFF) wtState "v" "p" 2 1 0 "k"
     rfl wtTimerOut wtStateOut (by rfl)⟩

/-- C6: for a positive local mean, any wait timer returned by
`create_wait_timer` has `duration ≥ minimum_wait_time` (the log is taken
of a value in `(0, 1]`, so the subtracted term is nonpositive). -/
theorem create_wait_timer_min_wait (C : Facade ℝ) (s : EnclaveState ℝ)
    (v pcid : String) (lm mw now : ℝ) (hlm : 0 < lm)
    (wt : EnclaveWaitTimer ℝ) (s' : EnclaveState ℝ)
    (h : createWaitTimer C s v pcid lm mw now = .ok (wt, s')) :
    mw ≤ wt.duration := by
  obtain ⟨hd, hn, -, -⟩ := createWaitTimer_ok h
  have hlt : waitTimerU C s.seal_private_key pcid < 2 ^ 64 := waitTimerU_lt _ _ _
  have h1 : (0 : ℝ) < (waitTimerU C s.seal_private_key pcid : ℝ) := by
    exact_mod_cast Nat.pos_of_ne_zero hn
  have h2 : (waitTimerU C s.seal_private_key pcid : ℝ) ≤ 2 ^ 64 - 1 := by
    have hle : waitTimerU C s.seal_private_key pcid ≤ 2 ^ 64 - 1 := by omega
    calc (waitTimerU C s.seal_private_key pcid : ℝ)
        ≤ ((2 ^ 64 - 1 : ℕ) : ℝ) := by exact_mod_cast hle
      _ = 2 ^ 64 - 1 := by norm_num
  have hden : (0 : ℝ) < 2 ^ 64 - 1 := by norm_num
  have hu1 : (waitTimerU C s.seal_private_key pcid : ℝ) / (2 ^ 64 - 1) ≤ 1 := by
    rw [div_le_one hden]; exact h2
  have hu0 : 0 < (waitTimerU C s.seal_private_key pcid : ℝ) / (2 ^ 64 - 1) :=
    div_pos h1 hden
  have hlog : Real.log ((waitTimerU C s.seal_private_key pcid : ℝ) / (2 ^ 64 - 1)) ≤ 0 :=
    Real.log_nonpos hu0.le hu1
  have hmul : lm * Real.log ((waitTimerU C s.seal_private_key pcid : ℝ) / (2 ^ 64 - 1)) ≤ 0 := by
    have := mul_le_mul_of_nonneg_left hlog hlm.le
    simpa using this
  rw [hd]
  linarith

theorem create_wait_timer_min_wait_witness :
    (0 : ℝ) < 2 ∧
    createWaitTimer (toyFacade 0 tagFF) wtState "v" "p" 2 1 0 = .ok (wtTimerOut, wtStateOut) ∧
    (1 : ℝ) ≤ wtTimerOut.duration :=
  ⟨by norm_num, by rfl,
   create_wait_timer_min_wait (toyFacade 0 tagFF) wtState "v" "p" 2 1 0 (by norm_num)
     wtTimerOut wtStateOut (by rfl)⟩

/-- C7: two successive `create_wait_timer` calls (the second from the
state produced by the first) with identical validator address, previous
certificate id, local mean and minimum wait time produce identical
durations — the seal key is fixed for the process and the draw is
deterministic. -/
theorem create_wait_timer_deterministic (C : Facade ℝ) (s : EnclaveState ℝ)
    (v pcid : String) (lm mw now1 now2 : ℝ)
    (wt1 : EnclaveWaitTimer ℝ) (s1 : EnclaveState ℝ)
    (wt2 : EnclaveWaitTimer ℝ) (s2 : EnclaveState ℝ)
    (h1 : createWaitTimer C s v pcid lm mw now1 = .ok (wt1, s1))
    (h2 : createWaitTimer C s1 v pcid lm mw now2 = .ok (wt2, s2)) :
    wt2.duration = wt1.duration := by
  obtain ⟨hd1, -, hseal, -⟩ := createWaitTimer_ok h1
  obtain ⟨hd2, -, -, -⟩ := createWaitTimer_ok h2
  rw [hd1, hd2, hseal]

theorem create_wait_timer_deterministic_witness :
    createWaitTimer (toyFacade 0 tagFF) wtState "v" "p" 2 1 0 = .ok (wtTimerOut, wtStateOut) ∧
    createWaitTimer (toyFacade 0 tagFF) wtStateOut "v" "p" 2 1 0 = .ok (wtTimerOut, wtStateOut) ∧
    wtTimerOut.duration = wtTimerOut.duration :=
  ⟨by rfl, by rfl,
   create_wait_timer_deterministic (toyFacade 0 tagFF) wtState "v" "p" 2 1 0 0
     wtTimerOut wtStateOut wtTimerOut wtStateOut (by rfl) (by rfl)⟩

/-- C8 (amended): the uniform value `u = n / (2^64 - 1)` computed inside
`create_wait_timer` always lies in `[0, 1]`; it is strictly positive —
so `math.log` gets a strictly positive argument and no domain error can
occur — exactly when the little-endian u64 `n` of the last 8 bytes of
the decoded seal signature is nonzero. -/
theorem wait_timer_uniform_in_unit (C : Facade ℝ) (sealKey pcid : String) :
    ((0 : ℝ) ≤ (waitTimerU C sealKey pcid : ℝ) / (2 ^ 64 - 1) ∧
     (waitTimerU C sealKey pcid : ℝ) / (2 ^ 64 - 1) ≤ 1) ∧
    (waitTimerU C sealKey pcid ≠ 0 →
      0 < (waitTimerU C sealKey pcid : ℝ) / (2 ^ 64 - 1)) ∧
    (∀ (s : EnclaveState ℝ) (v : String) (lm mw now : ℝ),
      s.seal_private_key = sealKey → waitTimerU C sealKey pcid ≠ 0 →
      createWaitTimer C s v pcid lm mw now ≠ .error .mathDomainError) := by
  have hden : (0 : ℝ) < 2 ^ 64 - 1 := by norm_num
  have hlt : waitTimerU C sealKey pcid < 2 ^ 64 := waitTimerU_lt _ _ _
  have h2 : (waitTimerU C sealKey pcid : ℝ) ≤ 2 ^ 64 - 1 := by
    have hle : waitTimerU C sealKey pcid ≤ 2 ^ 64 - 1 := by omega
    calc (waitTimerU C sealKey pcid : ℝ)
        ≤ ((2 ^ 64 - 1 : ℕ) : ℝ) := by exact_mod_cast hle
      _ = 2 ^ 64 - 1 := by norm_num
  refine ⟨⟨div_nonneg (Nat.cast_nonneg _) hden.le, ?_⟩, ?_, ?_⟩
  · rw [div_le_one hden]; exact h2
  · intro hn
    exact div_pos (by exact_mod_cast Nat.pos_of_ne_zero hn) hden
  · intro s v lm mw now hs hn
    unfold createWaitTimer
    split
    · simp
    · split
      · simp
      · split
        · rename_i k hk hcond
          rw [hs] at hcond
          exact absurd hcond hn
        · simp

theorem wait_timer_uniform_in_unit_witness :
    waitTimerU (toyFacade (0 : ℝ) tagFF) "sealk" "p" ≠ 0 ∧
    0 < (waitTimerU (toyFacade (0 : ℝ) tagFF) "sealk" "p" : ℝ) / (2 ^ 64 - 1) ∧
    wtState.seal_private_key = "sealk" ∧
    createWaitTimer (toyFacade 0 tagFF) wtState "v" "p" 2 1 0 ≠ .error .mathDomainError :=
  ⟨by decide,
   (wait_timer_uniform_in_unit (toyFacade (0 : ℝ) tagFF) "sealk" "p").2.1 (by decide),
   rfl,
   (wait_timer_uniform_in_unit (toyFacade (0 : ℝ) tagFF) "sealk" "p").2.2 wtState "v" 2 1 0
     rfl (by decide)⟩

/-- C8 counterexample: with a seal signature whose decoded last 8 bytes
are all zero, the uniform value is `0` — not in `(0, 1]` — and
`create_wait_timer` fails with the `math.log` domain error, refuting the
unconditional claim. -/
theorem wait_timer_uniform_zero_counterexample :
    ¬ (0 < (waitTimerU (toyFacade (0 : ℝ) tagZero) "sealk" "p" : ℝ) / (2 ^ 64 - 1)) ∧
    createWaitTimer (toyFacade 0 tagZero) wtState "v" "p" 2 1 0 = .error .mathDomainError := by
  constructor
  · have h0 : waitTimerU (toyFacade (0 : ℝ) tagZero) "sealk" "p" = 0 := by decide
    rw [h0]
    norm_num
  · rfl

/-! ### Wait-certificate timing -/

/-- C2: for an active non-genesis wait timer whose signature matches the
caller's timer, `create_wait_certificate` succeeds exactly when
`request_time + duration ≤ now ≤ request_time + duration + 30`, both
boundaries inclusive; strictly before the window it fails with the
timer-not-expired error and strictly after it with the timer-timed-out
error. -/
theorem create_wait_certificate_window {α : Type} [LinearOrderedField α]
    (C : Facade α) (s : EnclaveState α) (k : String)
    (t w : EnclaveWaitTimer α) (bh : String) (now : α) (iso : String)
    (hk : s.poet_private_key = some k)
    (ht : s.active_wait_timer = some t)
    (hng : t.previous_certificate_id ≠ NULL_BLOCK_IDENTIFIER)
    (hm : t.signature = C.sign (C.serializeTimer w) k) :
    ((∃ r, createWaitCertificate C s (some w) bh now iso = .ok r) ↔
      (t.request_time + t.duration ≤ now ∧
        now ≤ t.request_time + t.duration + 30)) ∧
    (now < t.request_time + t.duration →
      createWaitCertificate C s (some w) bh now iso = .error .timerNotExpired) ∧
    (t.request_time + t.duration + 30 < now →
      createWaitCertificate C s (some w) bh now iso = .error .timerTimedOut) := by
  have hsig : ¬ (t.signature ≠ C.sign (C.serializeTimer w) k) := by simp [hm]
  have hred : createWaitCertificate C s (some w) bh now iso =
      (if now < t.request_time + t.duration then .error .timerNotExpired
       else if t.request_time + t.duration + 30 < now then .error .timerTimedOut
       else
         .ok (⟨t.validator_address, t.duration, t.previous_certificate_id,
               t.local_mean, t.request_time,
               C.sha256hex (C.jsonNonce t.signature iso), bh,
               C.sign (C.serializeCert
                 (certFromTimer t (C.sha256hex (C.jsonNonce t.signature iso)) bh)) k⟩,
              { s with active_wait_timer := none })) := by
    simp only [createWaitCertificate, hk, ht, hsig, if_false, hng, ne_eq,
      not_false_eq_true, true_and, TIMER_TIMEOUT_PERIOD, certFromTimer]
  rw [hred]
  by_cases h1 : now < t.request_time + t.duration
  · rw [if_pos h1]
    refine ⟨?_, fun _ => rfl, fun h2 => absurd h2 (by linarith)⟩
    constructor
    · rintro ⟨r, hr⟩; exact Except.noConfusion hr
    · rintro ⟨ha, -⟩; linarith
  · rw [if_neg h1]
    by_cases h2 : t.request_time + t.duration + 30 < now
    · rw [if_pos h2]
      refine ⟨?_, fun h1' => absurd h1' h1, fun _ => rfl⟩
      constructor
      · rintro ⟨r, hr⟩; exact Except.noConfusion hr
      · rintro ⟨-, hb⟩; linarith
    · rw [if_neg h2]
      refine ⟨?_, fun h1' => absurd h1' h1, fun h2' => absurd h2' h2⟩
      constructor
      · intro _; exact ⟨le_of_not_lt h1, le_of_not_lt h2⟩
      · intro _; exact ⟨_, rfl⟩

/-- The active non-genesis timer used by the certificate witnesses
(`request_time = 10`, `duration = 5`). -/
def c2Timer : EnclaveWaitTimer ℚ := ⟨"v", 5, "p", 2, 10, ""⟩

/-- An initialized state holding `c2Timer` as the active timer. -/
def c2State : EnclaveState ℚ := ⟨"sealk", some "K", some "k", some c2Timer⟩

theorem create_wait_certificate_window_witness :
    c2State.poet_private_key = some "k" ∧
    c2State.active_wait_timer = some c2Timer ∧
    c2Timer.previous_certificate_id ≠ NULL_BLOCK_IDENTIFIER ∧
    c2Timer.signature =
      (toyFacade (0 : ℚ) tagFF).sign ((toyFacade (0 : ℚ) tagFF).serializeTimer c2Timer) "k" ∧
    (((∃ r, createWaitCertificate (toyFacade (0 : ℚ) tagFF) c2State (some c2Timer)
          "bh" 15 "iso" = .ok r) ↔
        (c2Timer.request_time + c2Timer.duration ≤ 15 ∧
          (15 : ℚ) ≤ c2Timer.request_time + c2Timer.duration + 30)) ∧
      ((15 : ℚ) < c2Timer.request_time + c2Timer.duration →
        createWaitCertificate (toyFacade (0 : ℚ) tagFF) c2State (some c2Timer)
          "bh" 15 "iso" = .error .timerNotExpired) ∧
      (c2Timer.request_time + c2Timer.duration + 30 < 15 →
        createWaitCertificate (toyFacade (0 : ℚ) tagFF) c2State (some c2Timer)
          "bh" 15 "iso" = .error .timerTimedOut)) :=
  ⟨rfl, rfl, by decide, rfl,
   create_wait_certificate_window (toyFacade (0 : ℚ) tagFF) c2State "k" c2Timer c2Timer
     "bh" 15 "iso" rfl rfl (by decide) rfl⟩

/-- C3: for an active wait timer whose previous certificate id equals
the null block identifier, `create_wait_certificate` never returns the
timer-not-expired or timer-timed-out error, regardless of the current
time — both timing checks are bypassed. -/
theorem create_wait_certificate_genesis_bypass {α : Type} [LinearOrderedField α]
    (C : Facade α) (s : EnclaveState α) (t : EnclaveWaitTimer α)
    (w : Option (EnclaveWaitTimer α)) (bh : String) (now : α) (iso : String)
    (ht : s.active_wait_timer = some t)
    (hg : t.previous_certificate_id = NULL_BLOCK_IDENTIFIER) :
    createWaitCertificate C s w bh now iso ≠ .error .timerNotExpired ∧
    createWaitCertificate C s w bh now iso ≠ .error .timerTimedOut := by
  have hng : ¬ (t.previous_certificate_id ≠ NULL_BLOCK_IDENTIFIER) := by simp [hg]
  constructor <;>
  · simp only [createWaitCertificate, ht]
    split
    · intro hc; injection hc with h2; exact Err.noConfusion h2
    · split
      · intro hc; injection hc with h2; exact Err.noConfusion h2
      · split
        · intro hc; injection hc with h2; exact Err.noConfusion h2
        · rw [if_neg (fun hc => hng hc.1), if_neg (fun hc => hng hc.1)]
          intro hc; exact Except.noConfusion hc

/-- The genesis timer (previous certificate id is the null block
identifier). -/
def c3Timer : EnclaveWaitTimer ℚ := ⟨"v", 5, NULL_BLOCK_IDENTIFIER, 2, 10, ""⟩

/-- An initialized state holding `c3Timer` as the active timer. -/
def c3State : EnclaveState ℚ := ⟨"sealk", some "K", some "k", some c3Timer⟩

theorem create_wait_certificate_genesis_bypass_witness :
    c3State.active_wait_timer = some c3Timer ∧
    c3Timer.previous_certificate_id = NULL_BLOCK_IDENTIFIER ∧
    createWaitCertificate (toyFacade (0 : ℚ) tagFF) c3State (some c3Timer)
      "bh" 99999 "iso" ≠ .error .timerNotExpired ∧
    createWaitCertificate (toyFacade (0 : ℚ) tagFF) c3State (some c3Timer)
      "bh" 99999 "iso" ≠ .error .timerTimedOut :=
  ⟨rfl, rfl,
   (create_wait_certificate_genesis_bypass (toyFacade (0 : ℚ) tagFF) c3State c3Timer
     (some c3Timer) "bh" 99999 "iso" rfl rfl).1,
   (create_wait_certificate_genesis_bypass (toyFacade (0 : ℚ) tagFF) c3State c3Timer
     (some c3Timer) "bh" 99999 "iso" rfl rfl).2⟩

/-! ### Wait-timer deserialization -/

/-- C9: `deserialize_wait_timer` checks the signature against the
enclave's current PoET public key; when the check fails it returns
`none` (an absent value, not an error), and when it succeeds it returns
the parsed wait timer. -/
theorem deserialize_wait_timer_spec {α : Type} (C : Facade α) (s : EnclaveState α)
    (ser sig : String) :
    (C.verify ser sig s.poet_public_key = false →
      deserializeWaitTimer C s ser sig = none) ∧
    (C.verify ser sig s.poet_public_key = true →
      deserializeWaitTimer C s ser sig = some (C.timerFromSerialized ser sig)) := by
  constructor <;> intro h <;> simp [deserializeWaitTimer, h]

/-- A toy facade whose signature verification always succeeds. -/
def toyFacadeV {α : Type} (d : α) : Facade α :=
  { toyFacade d tagFF with verify := fun _ _ _ => true }

theorem deserialize_wait_timer_spec_witness :
    deserializeWaitTimer (toyFacade (0 : ℚ) tagFF) c2State "ser" "sig" = none ∧
    deserializeWaitTimer (toyFacadeV (0 : ℚ)) c2State "ser" "sig" =
      some ((toyFacadeV (0 : ℚ)).timerFromSerialized "ser" "sig") :=
  ⟨(deserialize_wait_timer_spec (toyFacade (0 : ℚ) tagFF) c2State "ser" "sig").1 rfl,
   (deserialize_wait_timer_spec (toyFacadeV (0 : ℚ)) c2State "ser" "sig").2 rfl⟩

/-! ### Unsealing signup data with missing keys -/

/-- C10: when the sealed data decodes to valid JSON lacking both PoET
key fields, `unseal_signup_data` does not fail: it returns an absent
public key while installing the literal string `"None"` as both keys
(`str(None)`), so a later `create_wait_timer` call passes its
not-initialized precondition check. -/
theorem unseal_missing_keys_installs_none (C : Facade ℝ) (s : EnclaveState ℝ)
    (sealed : String)
    (h : C.json2dictKeys (C.b64decodeStr sealed) = ⟨none, none⟩) :
    (unsealSignupData C s sealed).1 = none ∧
    (unsealSignupData C s sealed).2.poet_public_key = some "None" ∧
    (unsealSignupData C s sealed).2.poet_private_key = some "None" ∧
    (∀ (v pcid : String) (lm mw now : ℝ),
      createWaitTimer C (unsealSignupData C s sealed).2 v pcid lm mw now ≠
        .error .notInitializedTimer) := by
  have hpriv : (unsealSignupData C s sealed).2.poet_private_key = some "None" := by
    simp [unsealSignupData, h, pyStr]
  refine ⟨?_, ?_, hpriv, ?_⟩
  · simp [unsealSignupData, h]
  · simp [unsealSignupData, h, pyStr]
  · intro v pcid lm mw now
    unfold createWaitTimer
    split
    · rename_i heq
      rw [hpriv] at heq
      cases heq
    · split
      · intro hc; injection hc with h2; exact Err.noConfusion h2
      · split
        · intro hc; injection hc with h2; exact Err.noConfusion h2
        · intro hc; exact Except.noConfusion hc

theorem unseal_missing_keys_installs_none_witness :
    (toyFacade (0 : ℝ) tagFF).json2dictKeys
      ((toyFacade (0 : ℝ) tagFF).b64decodeStr "sealed") = ⟨none, none⟩ ∧
    (unsealSignupData (toyFacade (0 : ℝ) tagFF) wtState "sealed").1 = none ∧
    (unsealSignupData (toyFacade (0 : ℝ) tagFF) wtState "sealed").2.poet_public_key =
      some "None" ∧
    (unsealSignupData (toyFacade (0 : ℝ) tagFF) wtState "sealed").2.poet_private_key =
      some "None" ∧
    createWaitTimer (toyFacade (0 : ℝ) tagFF)
      (unsealSignupData (toyFacade (0 : ℝ) tagFF) wtState "sealed").2 "v" "p" 2 1 0 ≠
      .error .notInitializedTimer :=
  ⟨rfl,
   (unseal_missing_keys_installs_none (toyFacade (0 : ℝ) tagFF) wtState "sealed" rfl).1,
   (unseal_missing_keys_installs_none (toyFacade (0 : ℝ) tagFF) wtState "sealed" rfl).2.1,
   (unseal_missing_keys_installs_none (toyFacade (0 : ℝ) tagFF) wtState "sealed" rfl).2.2.1,
   (unseal_missing_keys_installs_none (toyFacade (0 : ℝ) tagFF) wtState "sealed" rfl).2.2.2
     "v" "p" 2 1 0⟩

/-! ### The SGX quote codec -/

lemma sgxQuoteParse_serialize (q : SgxQuote)
    (hb : q.basename.length = 32) (hm : q.report_body.mr_enclave.length = 32) :
    sgxQuoteParse (sgxQuoteSerialize q) = padQuote q := by
  simp only [sgxQuoteParse, sgxQuoteSerialize, padQuote, SgxQuote.mk.injEq,
    SgxReportBody.mk.injEq, SgxReportData.mk.injEq]
  refine ⟨?_, ?_, ?_⟩
  · rw [List.append_assoc, List.take_left' hb]
  · rw [List.append_assoc, List.drop_left' hb, List.take_left' hm]
  · have h64 : (q.basename ++ q.report_body.mr_enclave).length = 64 := by
      rw [List.length_append, hb, hm]
    rw [List.drop_left' h64]

lemma pad64_ne_of_ne {a b : List Byte} (hlen : a.length = b.length) (hne : a ≠ b) :
    pad64 a ≠ pad64 b := by
  intro hEq
  apply hne
  have h1 := congrArg (List.take a.length) hEq
  rw [pad64, pad64, List.take_left, hlen, List.take_left] at h1
  exact h1

/-! ### Signup verification uses the verifier's own PoET key -/

/-- C5: `verify_signup_info` never reads the `poet_public_key` announced
in the signup info (replacing it does not change the result); when the
verifier's enclave holds PoET public key `ppk`, a successful
verification forces the parsed quote's `report_data` to equal
`SHA256(upper(OPKH) ++ upper(ppk))` right-padded with zeros to 64 bytes,
and any mismatch with that value makes verification fail. -/
theorem verify_signup_uses_own_poet_key {α : Type} (C : Facade α)
    (s : EnclaveState α) (si : EnclaveSignupInfo) (opkh ppk : String)
    (hp : s.poet_public_key = some ppk) :
    (∀ x, verifySignupInfo C s { si with poet_public_key := x } opkh =
          verifySignupInfo C s si opkh) ∧
    (∀ q, parsedQuoteOf C si = some q →
      (verifySignupInfo C s si opkh = .ok () →
        q.report_body.report_data.d =
          pad64 (C.sha256digest (pyUpper opkh ++ pyUpper ppk))) ∧
      (q.report_body.report_data.d ≠
          pad64 (C.sha256digest (pyUpper opkh ++ pyUpper ppk)) →
        verifySignupInfo C s si opkh ≠ .ok ())) := by
  refine ⟨fun x => rfl, fun q hq => ?_⟩
  have main : verifySignupInfo C s si opkh = .ok () →
      q.report_body.report_data.d =
        pad64 (C.sha256digest (pyUpper opkh ++ pyUpper ppk)) := by
    intro hok
    simp only [verifySignupInfo] at hok
    split at hok
    · cases hok
    · split at hok
      · cases hok
      · split at hok
        · split at hok
          · cases hok
          · split at hok
            · cases hok
            · split at hok
              · cases hok
              · split at hok
                · cases hok
                · split at hok
                  · cases hok
                  · split at hok
                    · cases hok
                    · split at hok
                      · cases hok
                      · split at hok
                        · cases hok
                        · split at hok
                          · cases hok
                          · split at hok
                            · cases hok
                            · split at hok
                              · cases hok
                              · split at hok
                                · cases hok
                                · split at hok
                                  · cases hok
                                  · split at hok
                                    · cases hok
                                    · split at hok
                                      · cases hok
                                      · split at hok
                                        · cases hok
                                        · simp_all [parsedQuoteOf]
        · cases hok
  exact ⟨main, fun hne hok => hne (main hok)⟩

/-! ### Creating and verifying signup info -/

/-- C4 (amended): verifying the signup info returned by
`create_signup_info(OPKH, n)` with the same OPKH succeeds (given the
crypto facts: the RSA signature round-trips, base64 round-trips on the
signature and quote bytes, and the canonical JSON round-trips on the
verification report); verifying it with an OPKH2 whose report-data hash
input digests differently fails with the report-data validation error.
An OPKH2 that differs only in letter case hashes identically and is
accepted — see the counterexample. -/
theorem create_verify_signup_roundtrip {α : Type} (C : Facade α) (s : EnclaveState α)
    (opkh nonce priv ts opkh2 pub : String)
    (hpub : C.generate_pubkey priv = pub)
    (hJ : C.json2dictVR (csiVrJson C opkh nonce pub ts) =
      csiVerificationReport C opkh nonce pub ts)
    (hBs : C.b64decodeBytes (C.b64encodeBytes (C.rsaSign (csiVrJson C opkh nonce pub ts))) =
      C.rsaSign (csiVrJson C opkh nonce pub ts))
    (hR : C.rsaVerify (C.rsaSign (csiVrJson C opkh nonce pub ts))
      (csiVrJson C opkh nonce pub ts) = true)
    (hBq : C.b64decodeBytes (C.b64encodeBytes (sgxQuoteSerialize (csiQuote C opkh pub))) =
      sgxQuoteSerialize (csiQuote C opkh pub))
    (hlen : (csiReportData C opkh2 pub).length = (csiReportData C opkh pub).length)
    (hne : csiReportData C opkh2 pub ≠ csiReportData C opkh pub) :
    verifySignupInfo C (createSignupInfo C s opkh nonce priv ts).2
      (createSignupInfo C s opkh nonce priv ts).1 opkh = .ok () ∧
    verifySignupInfo C (createSignupInfo C s opkh nonce priv ts).2
      (createSignupInfo C s opkh nonce priv ts).1 opkh2 =
      .error (.reportDataMismatch (pad64 (csiReportData C opkh pub))
        (pad64 (csiReportData C opkh2 pub))) := by
  have hOK : pyUpper "OK" = "OK" := by decide
  have hb32 : (csiQuote C opkh pub).basename.length = 32 := by
    simp [csiQuote, VALID_BASENAME, mkBytes]
  have hm32 : (csiQuote C opkh pub).report_body.mr_enclave.length = 32 := by
    simp [csiQuote, VALID_ENCLAVE_MEASUREMENT, mkBytes]
  have hparse := sgxQuoteParse_serialize (csiQuote C opkh pub) hb32 hm32
  have hD : pad64 (C.sha256digest (pyUpper opkh ++ pyUpper pub)) ≠
      pad64 (C.sha256digest (pyUpper opkh2 ++ pyUpper pub)) :=
    pad64_ne_of_ne hlen.symm (fun hEq => hne hEq.symm)
  constructor
  · simp only [createSignupInfo, verifySignupInfo, hpub]
    rw [hBs, hR, hJ]
    simp only [csiVerificationReport]
    rw [hBq, hparse]
    simp [padQuote, csiQuote, csiReportData, hOK]
  · simp only [createSignupInfo, verifySignupInfo, hpub]
    rw [hBs, hR, hJ]
    simp only [csiVerificationReport]
    rw [hBq, hparse]
    simp [padQuote, csiQuote, csiReportData, hOK, hD]

/-- A toy byte digest (the bytes of the string), standing in for SHA-256
in the concrete witnesses. -/
def toyDigest (s : String) : List Byte := s.data.map (fun c => mkByte c.toNat)

/-- A toy byte-to-string encoding (one character per byte), standing in
for base64 in the concrete witnesses. -/
def toyEncodeBytes (bs : List Byte) : String := ⟨bs.map (fun b => Char.ofNat b.val)⟩

/-- The verification-report dictionary the toy signup facade's JSON
decoder returns: the value `create_signup_info` produces for
`OPKH = "ab"`, `nonce = "n"`, `pub = "pub"`, `timestamp = "ts"` under
the toy primitives. -/
def toySigVR : VerificationReportDict :=
  ⟨some "ab", some "ts", some "OK",
   some (toyEncodeBytes (sgxQuoteSerialize
     ⟨VALID_BASENAME, ⟨VALID_ENCLAVE_MEASUREMENT, ⟨toyDigest "ABPUB"⟩⟩⟩)),
   some "OK", some "ab", some "n", some "ts"⟩

/-- The toy instantiation of the modelled collaborators used by the
signup-info witnesses. -/
def toySigFacade : Facade ℚ where
  generate_pubkey := fun _ => "pub"
  sign := fun _ _ => ""
  verify := fun _ _ _ => false
  b64decodeBytes := toyDigest
  b64encodeBytes := toyEncodeBytes
  b64encodeStr := fun s => s
  b64decodeStr := fun s => s
  sha256hex := fun s => s
  sha256digest := toyDigest
  rsaSign := toyDigest
  rsaVerify := fun bs m => decide (bs = toyDigest m)
  dict2jsonVR := fun _ => "vrjson"
  json2dictVR := fun _ => toySigVR
  dict2jsonKeys := fun _ => ""
  json2dictKeys := fun _ => ⟨none, none⟩
  jsonNonce := fun _ _ => ""
  serializeTimer := fun _ => ""
  serializeCert := fun _ => ""
  timerFromSerialized := fun _ _ => ⟨"", 0, "", 0, 0, ""⟩

/-- The signup info and state produced by the toy `create_signup_info`
run with `OPKH = "ab"`. -/
def c4Run : EnclaveSignupInfo × EnclaveState ℚ :=
  createSignupInfo toySigFacade c2State "ab" "n" "priv" "ts"

theorem create_verify_signup_roundtrip_witness :
    toySigFacade.generate_pubkey "priv" = "pub" ∧
    toySigFacade.json2dictVR (csiVrJson toySigFacade "ab" "n" "pub" "ts") =
      csiVerificationReport toySigFacade "ab" "n" "pub" "ts" ∧
    toySigFacade.b64decodeBytes (toySigFacade.b64encodeBytes
      (toySigFacade.rsaSign (csiVrJson toySigFacade "ab" "n" "pub" "ts"))) =
      toySigFacade.rsaSign (csiVrJson toySigFacade "ab" "n" "pub" "ts") ∧
    toySigFacade.rsaVerify (toySigFacade.rsaSign (csiVrJson toySigFacade "ab" "n" "pub" "ts"))
      (csiVrJson toySigFacade "ab" "n" "pub" "ts") = true ∧
    toySigFacade.b64decodeBytes (toySigFacade.b64encodeBytes
      (sgxQuoteSerialize (csiQuote toySigFacade "ab" "pub"))) =
      sgxQuoteSerialize (csiQuote toySigFacade "ab" "pub") ∧
    (csiReportData toySigFacade "xy" "pub").length =
      (csiReportData toySigFacade "ab" "pub").length ∧
    csiReportData toySigFacade "xy" "pub" ≠ csiReportData toySigFacade "ab" "pub" ∧
    verifySignupInfo toySigFacade c4Run.2 c4Run.1 "ab" = .ok () ∧
    verifySignupInfo toySigFacade c4Run.2 c4Run.1 "xy" =
      .error (.reportDataMismatch (pad64 (csiReportData toySigFacade "ab" "pub"))
        (pad64 (csiReportData toySigFacade "xy" "pub"))) :=
  ⟨rfl, by decide, by decide, by decide, by decide, by decide, by decide,
   (create_verify_signup_roundtrip toySigFacade c2State "ab" "n" "priv" "ts" "xy" "pub"
     rfl (by decide) (by decide) (by decide) (by decide) (by decide) (by decide)).1,
   (create_verify_signup_roundtrip toySigFacade c2State "ab" "n" "priv" "ts" "xy" "pub"
     rfl (by decide) (by decide) (by decide) (by decide) (by decide) (by decide)).2⟩

/-- C4 counterexample: the claim that verification with any *different*
originator public key hash fails is false — `verify_signup_info`
uppercases the hash before re-deriving the report data, so the distinct
OPKH `"AB"` verifies a signup created for `"ab"`. -/
theorem verify_signup_case_insensitive_counterexample :
    ("AB" : String) ≠ "ab" ∧
    verifySignupInfo toySigFacade c4Run.2 c4Run.1 "AB" = .ok () :=
  ⟨by decide, by rfl⟩

/-- The quote parsed back out of the toy signup info. -/
def c5Quote : SgxQuote :=
  ⟨VALID_BASENAME, ⟨VALID_ENCLAVE_MEASUREMENT, ⟨pad64 (toyDigest "ABPUB")⟩⟩⟩

theorem verify_signup_uses_own_poet_key_witness :
    c4Run.2.poet_public_key = some "pub" ∧
    (verifySignupInfo toySigFacade c4Run.2
        { c4Run.1 with poet_public_key := "other" } "ab" =
      verifySignupInfo toySigFacade c4Run.2 c4Run.1 "ab") ∧
    parsedQuoteOf toySigFacade c4Run.1 = some c5Quote ∧
    c5Quote.report_body.report_data.d =
      pad64 (toySigFacade.sha256digest (pyUpper "ab" ++ pyUpper "pub")) :=
  ⟨rfl,
   (verify_signup_uses_own_poet_key toySigFacade c4Run.2 c4Run.1 "ab" "pub" rfl).1 "other",
   by decide,
   ((verify_signup_uses_own_poet_key toySigFacade c4Run.2 c4Run.1 "ab" "pub" rfl).2
     c5Quote (by decide)).1 (by rfl)⟩

end PoetSim
